import Mathlib

/-!
Verification of the OpenRouter chat-session adapter.

This file gives a shallow embedding of the adapter core:
 - the completion client (`createChatCompletion`),
 - the in-memory session store (`ChatStore`, `storeGet`, `storeSet`),
 - the stream transcoder (`transformStreamToV0Format` and its per-line
   dispatch `processLine`),
 - the session adapter operations (`createChatSync`, `sendMessageSync`,
   `createChatStream`, `sendMessageStream`, `getChat`).

Runtime primitives of the host platform are made explicit:
 - fresh identifiers (`nanoid`) and clock reads (`Date.now`) are threaded as
   explicit arguments;
 - the network (`fetch`) is an explicit `FetchResult` input, and the requests
   the client performs are returned as a trace;
 - `JSON.parse` is an explicit parameter `parse : String → Option Json`
   (`none` models a parse exception), with the property accesses and the
   truthiness/string coercions of the host language defined on `Json`;
 - in-place mutation of a session object that is aliased by the store is
   rendered by an explicit store update at the point of mutation.
-/

/-- Message role, as in the `ChatMessage`/`OpenRouterMessage` union types. -/
inductive Role where
  | system
  | user
  | assistant
deriving DecidableEq, BEq, Repr

/-- A chat message as kept in a session (`ChatMessage` in the adapter). -/
structure ChatMessage where
  id : Option String
  role : Role
  content : String
  created_at : Option Nat
deriving DecidableEq, Repr

/-- A chat session (`ChatDetail` in the adapter). -/
structure ChatDetail where
  id : String
  created_at : Nat
  updated_at : Nat
  demo : Option Bool
  messages : List ChatMessage
deriving DecidableEq, Repr

/-- The in-memory session store: a JS `Map` from chat id to session, modeled
as an insertion-ordered association list. -/
def ChatStore : Type := List (String × ChatDetail)

/-- `Map.get`: the value stored under `k`, if any. -/
def storeGet : ChatStore → String → Option ChatDetail
  | [], _ => none
  | (k, v) :: rest, k2 => if k = k2 then some v else storeGet rest k2

/-- `Map.set`: replace the entry for `k` in place if present, else append. -/
def storeSet : ChatStore → String → ChatDetail → ChatStore
  | [], k, v => [(k, v)]
  | (k1, v1) :: rest, k, v =>
    if k1 = k then (k, v) :: rest else (k1, v1) :: storeSet rest k v

/-- A message in the wire format sent to the completion endpoint
(`OpenRouterMessage`). -/
structure OpenRouterMessage where
  role : Role
  content : String
deriving DecidableEq, Repr

/-- The `message` object of a completion choice.  The response is received as
untyped JSON and dereferenced with optional chaining, so every field is
optional here. -/
structure RespMessage where
  role : Option String
  content : Option String
deriving DecidableEq, Repr

/-- One entry of `choices` in a sync completion response. -/
structure RespChoice where
  message : Option RespMessage
  finish_reason : Option String
deriving DecidableEq, Repr

/-- A sync completion response (`OpenRouterResponse`); only the fields the
adapter dereferences are modeled, optional as its `?.` accesses allow. -/
structure OpenRouterResponse where
  choices : List RespChoice
deriving DecidableEq, Repr

/-- JS `a || b` on strings: the empty string is falsy. -/
def jsOr (a b : String) : String := if a = "" then b else a

/-- Modelled from the spec: the constants module imported by the client
(`OPENROUTER_API_BASE_URL`) is absent from the sources; the spec fixes only
that there is a configured base URL.  No claim depends on its value. -/
def OPENROUTER_API_BASE_URL : String := "https://openrouter.ai/api/v1"

/-- Modelled from the spec: the configured default model identifier
(`DEFAULT_MODEL` in the absent constants module).  No claim depends on its
value. -/
def DEFAULT_MODEL : String := "openrouter/default-model"

/-- An HTTP request as the completion client performs it (only the fields the
client actually sets; the sampling temperature, a float, is not modeled and is
not read by any claim). -/
structure HttpRequest where
  url : String
  authorization : String
  model : String
  messages : List OpenRouterMessage
  stream : Bool
  max_tokens : Nat
deriving DecidableEq, Repr

/-- What the network returns to one `fetch` of the completion endpoint:
either a successful body of type `α` (a parsed JSON response for sync calls,
an open byte stream for streaming calls) or a non-success HTTP status with
its status text and response body text. -/
inductive FetchResult (α : Type) where
  | ok (body : α)
  | httpError (status : Nat) (statusText : String) (bodyText : String)

/-- The message of the error thrown on a non-success upstream status.  Note
the thrown message interpolates the numeric status and the HTTP status text;
the response body text is only logged. -/
def apiErrorMessage (status : Nat) (statusText : String) : String :=
  "OpenRouter API error: " ++ toString status ++ " " ++ statusText

/-- The message of the error thrown when no effective API key is available. -/
def missingKeyMessage : String :=
  "OpenRouter API key is required. Please configure an API key in settings."

/-- `apiKey || this.apiKey`: the effective credential of one client call.
`callKey` is the per-call override (`null`/`undefined` modeled as `none`),
`instKey` the client instance key (itself `ctor key || env key || ''`). -/
def effectiveKey (callKey : Option String) (instKey : String) : String :=
  jsOr (callKey.getD "") instKey

/-- `OpenRouterClient` construction: `apiKey || process.env.OPENROUTER_API_KEY
|| ''`. -/
def instanceKey (ctorKey : Option String) (envKey : Option String) : String :=
  jsOr (ctorKey.getD "") (envKey.getD "")

/-- `OpenRouterClient.createChatCompletion`: resolve the effective credential,
fail before any network request when it is empty, otherwise perform one POST
and either return the body or fail with the status error.  The second
component is the trace of network requests performed. -/
def createChatCompletion {α : Type} (instKey : String)
    (messages : List OpenRouterMessage) (modelOpt : Option String)
    (streamFlag : Bool) (callKey : Option String) (fetch : FetchResult α) :
    Except String α × List HttpRequest :=
  let model := modelOpt.getD DEFAULT_MODEL
  let effKey := effectiveKey callKey instKey
  if effKey = "" then
    (.error missingKeyMessage, [])
  else
    let req : HttpRequest :=
      { url := OPENROUTER_API_BASE_URL ++ "/chat/completions"
        authorization := "Bearer " ++ effKey
        model := model
        messages := messages
        stream := streamFlag
        max_tokens := 4000 }
    match fetch with
    | .ok body => (.ok body, [req])
    | .httpError status statusText _ =>
      (.error (apiErrorMessage status statusText), [req])

/-- The fixed system instruction prepended to every generation request. -/
def systemPrompt : String :=
  "You are a helpful AI assistant that can help users build applications, write code, and solve problems. Be concise and practical in your responses."

/-- `response.choices[0]?.message?.content || 'No response generated'`. -/
def extractContent (r : OpenRouterResponse) : String :=
  jsOr (((r.choices.head?.bind RespChoice.message).bind RespMessage.content).getD "")
    "No response generated"

/-- `OpenRouterAdapter.createChat` in sync mode.  `chatId`, `userMsgId`,
`asstMsgId` are the `nanoid()` draws and `t`, `tA` the `Date.now()` reads, in
program order. -/
def createChatSync (store : ChatStore) (message : String)
    (modelOpt callKey : Option String) (instKey : String)
    (fetch : FetchResult OpenRouterResponse)
    (chatId userMsgId asstMsgId : String) (t tA : Nat) :
    Except String ChatDetail × ChatStore :=
  let userMessage : ChatMessage :=
    { id := some userMsgId, role := .user, content := message, created_at := some t }
  let chat : ChatDetail :=
    { id := chatId, created_at := t, updated_at := t, demo := some true
      messages := [userMessage] }
  let openRouterMessages : List OpenRouterMessage :=
    [{ role := .system, content := systemPrompt }, { role := .user, content := message }]
  match (createChatCompletion instKey openRouterMessages modelOpt false callKey fetch).1 with
  | .error e => (.error e, store)
  | .ok response =>
    let assistantMessage : ChatMessage :=
      { id := some asstMsgId, role := .assistant
        content := extractContent response, created_at := some tA }
    let chat2 : ChatDetail :=
      { chat with messages := chat.messages ++ [assistantMessage], updated_at := tA }
    (.ok chat2, storeSet store chatId chat2)

/-- `OpenRouterAdapter.sendMessage` in sync mode.  An absent chat id degrades
to `createChat` (the fresh `nanoid()` is `newChatId`).  When the chat is
present, pushing the user message mutates the stored object in place (the
store holds a reference), which the embedding renders as an immediate store
update. -/
def sendMessageSync (store : ChatStore) (chatId : String) (message : String)
    (modelOpt callKey : Option String) (instKey : String)
    (fetch : FetchResult OpenRouterResponse)
    (newChatId userMsgId asstMsgId : String) (t tA : Nat) :
    Except String ChatDetail × ChatStore :=
  match storeGet store chatId with
  | none =>
    createChatSync store message modelOpt callKey instKey fetch
      newChatId userMsgId asstMsgId t tA
  | some chat0 =>
    let userMessage : ChatMessage :=
      { id := some userMsgId, role := .user, content := message, created_at := some t }
    let chat : ChatDetail := { chat0 with messages := chat0.messages ++ [userMessage] }
    let store1 := storeSet store chatId chat
    let openRouterMessages : List OpenRouterMessage :=
      { role := Role.system, content := systemPrompt } ::
        chat.messages.map (fun m => { role := m.role, content := m.content })
    match (createChatCompletion instKey openRouterMessages modelOpt false callKey fetch).1 with
    | .error e => (.error e, store1)
    | .ok response =>
      let assistantMessage : ChatMessage :=
        { id := some asstMsgId, role := .assistant
          content := extractContent response, created_at := some tA }
      let chat2 : ChatDetail :=
        { chat with messages := chat.messages ++ [assistantMessage], updated_at := tA }
      (.ok chat2, storeSet store1 chatId chat2)

/-- `OpenRouterAdapter.getChat`: a pure store read. -/
def getChat (store : ChatStore) (chatId : String) : Option ChatDetail :=
  storeGet store chatId

/-- A JSON value, as produced by the host `JSON.parse` (numbers modeled as
integers; no claim reads a numeric payload). -/
inductive Json where
  | null
  | bool (b : Bool)
  | num (n : Int)
  | str (s : String)
  | arr (elems : List Json)
  | obj (fields : List (String × Json))

mutual

/-- Host-language string coercion `String(v)` of a JSON value, as used by
`assistantMessage += content`. -/
def jsToString : Json → String
  | .null => "null"
  | .bool b => if b then "true" else "false"
  | .num n => toString n
  | .str s => s
  | .obj _ => "[object Object]"
  | .arr xs => jsArrJoin xs
termination_by j => (sizeOf j, 1)

/-- Array stringification: elements joined by commas. -/
def jsArrJoin : List Json → String
  | [] => ""
  | [x] => jsArrElem x
  | x :: y :: rest => jsArrElem x ++ "," ++ jsArrJoin (y :: rest)
termination_by xs => (sizeOf xs, 0)

/-- Inside an array, `null` stringifies to the empty string. -/
def jsArrElem : Json → String
  | .null => ""
  | j => jsToString j
termination_by j => (sizeOf j, 2)

end

/-- Host-language truthiness of a JSON value, as used by `if (content)`. -/
def jsTruthy : Json → Bool
  | .null => false
  | .bool b => b
  | .num n => n != 0
  | .str s => s != ""
  | .arr _ => true
  | .obj _ => true

/-- Property access `v?.k`: a field of an object, `undefined` otherwise. -/
def jsGet (j : Json) (k : String) : Option Json :=
  match j with
  | .obj fields => (fields.find? (fun p => p.1 == k)).map Prod.snd
  | _ => none

/-- Index access `v?.[0]`: the first element of an array, else `undefined`. -/
def jsIndexZero : Json → Option Json
  | .arr (x :: _) => some x
  | _ => none

/-- The access path `parsed.choices?.[0]?.delta?.content`. -/
def deltaContent (j : Json) : Option Json :=
  (((jsGet j "choices").bind jsIndexZero).bind (fun d => jsGet d "delta")).bind
    (fun d => jsGet d "content")

/-- JS `line.startsWith(pre)`. -/
def jsStartsWith (s pre : String) : Bool := pre.data.isPrefixOf s.data

/-- JS `s.slice(n)` for a non-negative `n`. -/
def jsSlice (s : String) (n : Nat) : String := String.mk (s.data.drop n)

/-- Splitting a character list at every newline character, preserving empty
segments, as JS `split('\n')` does. -/
def splitLines : List Char → List (List Char)
  | [] => [[]]
  | c :: rest =>
    let r := splitLines rest
    if c = '\n' then [] :: r
    else
      match r with
      | [] => [[c]]
      | l :: ls => (c :: l) :: ls

/-- JS `chunk.split('\n')`. -/
def jsSplitNewlines (s : String) : List String := (splitLines s.data).map String.mk

/-- An event enqueued on the outbound stream: an incremental `message_delta`
or the final `chat_complete`. -/
inductive StreamEvent where
  | message_delta (content : Json) (messageId : String)
  | chat_complete (chat : ChatDetail)

/-- Terminal state of the outbound stream: `controller.close()` or
`controller.error(e)`. -/
inductive StreamOutcome where
  | closed
  | errored (msg : String)
deriving DecidableEq

/-- How the upstream byte stream ends after its chunks: a clean done signal,
or a read error carrying the thrown message. -/
inductive UpstreamEnd where
  | done
  | readError (msg : String)
deriving DecidableEq

/-- An upstream byte stream: the successfully read chunks (already decoded to
text), then its ending. -/
structure Upstream where
  chunks : List String
  ending : UpstreamEnd

/-- Everything observable of one transcoding run: the events enqueued in
order, the terminal state of the outbound stream, and the session object and
store as left behind. -/
structure TranscodeResult where
  events : List StreamEvent
  outcome : StreamOutcome
  chat : ChatDetail
  store : ChatStore

/-- One iteration of `for (const line of lines)` in the transcoder: dispatch
on the `data: ` prefix, skip the `[DONE]` sentinel, skip malformed JSON and
contentless records, append truthy content to the accumulator and emit a
`message_delta`. -/
def processLine (parse : String → Option Json) (mid acc line : String) :
    String × List StreamEvent :=
  if jsStartsWith line "data: " then
    if jsSlice line 6 = "[DONE]" then (acc, [])
    else
      match parse (jsSlice line 6) with
      | none => (acc, [])
      | some parsed =>
        match deltaContent parsed with
        | none => (acc, [])
        | some content =>
          if jsTruthy content then
            (acc ++ jsToString content, [.message_delta content mid])
          else (acc, [])
  else (acc, [])

/-- Processing a list of lines in order, threading the accumulator and
concatenating the emitted events. -/
def processLines (parse : String → Option Json) (mid acc : String) :
    List String → String × List StreamEvent
  | [] => (acc, [])
  | line :: rest =>
    let r1 := processLine parse mid acc line
    let r2 := processLines parse mid r1.1 rest
    (r2.1, r1.2 ++ r2.2)

/-- Processing one decoded chunk: split on newlines, then process each line. -/
def processChunk (parse : String → Option Json) (mid acc chunk : String) :
    String × List StreamEvent :=
  processLines parse mid acc (jsSplitNewlines chunk)

/-- Processing all successfully read chunks in order. -/
def processChunks (parse : String → Option Json) (mid acc : String) :
    List String → String × List StreamEvent
  | [] => (acc, [])
  | c :: rest =>
    let r1 := processChunk parse mid acc c
    let r2 := processChunks parse mid r1.1 rest
    (r2.1, r1.2 ++ r2.2)

/-- `OpenRouterAdapter.transformStreamToV0Format`: transcode the upstream
stream for session `chat`.  `mid` is the `nanoid()` drawn for the assistant
message, `tMsg`/`tUpd` the two `Date.now()` reads of the finalize step.  On a
clean done signal the assistant message holding the accumulated content is
appended, the session is stored, `chat_complete` is emitted once and the
outbound stream closes; on an upstream read error the outbound stream is put
into the errored state and neither session nor store is touched. -/
def transformStreamToV0Format (parse : String → Option Json)
    (chat : ChatDetail) (store : ChatStore) (mid : String) (tMsg tUpd : Nat)
    (up : Upstream) : TranscodeResult :=
  let r := processChunks parse mid "" up.chunks
  match up.ending with
  | .done =>
    let finalMessage : ChatMessage :=
      { id := some mid, role := .assistant, content := r.1, created_at := some tMsg }
    let chat2 : ChatDetail :=
      { chat with messages := chat.messages ++ [finalMessage], updated_at := tUpd }
    { events := r.2 ++ [.chat_complete chat2], outcome := .closed
      chat := chat2, store := storeSet store chat.id chat2 }
  | .readError m =>
    { events := r.2, outcome := .errored m, chat := chat, store := store }

/-- `OpenRouterAdapter.createChat` in stream mode: build the session with the
initial user message, request a streaming completion, and transcode it. -/
def createChatStream (store : ChatStore) (message : String)
    (modelOpt callKey : Option String) (instKey : String)
    (fetch : FetchResult Upstream) (parse : String → Option Json)
    (chatId userMsgId asstMsgId : String) (t tMsg tUpd : Nat) :
    Except String TranscodeResult × ChatStore :=
  let userMessage : ChatMessage :=
    { id := some userMsgId, role := .user, content := message, created_at := some t }
  let chat : ChatDetail :=
    { id := chatId, created_at := t, updated_at := t, demo := some true
      messages := [userMessage] }
  let openRouterMessages : List OpenRouterMessage :=
    [{ role := .system, content := systemPrompt }, { role := .user, content := message }]
  match (createChatCompletion instKey openRouterMessages modelOpt true callKey fetch).1 with
  | .error e => (.error e, store)
  | .ok up =>
    let r := transformStreamToV0Format parse chat store asstMsgId tMsg tUpd up
    (.ok r, r.store)

/-- `OpenRouterAdapter.sendMessage` in stream mode: an absent id degrades to
`createChat`; otherwise the user message is pushed onto the aliased stored
session before the streaming completion is requested and transcoded. -/
def sendMessageStream (store : ChatStore) (chatId : String) (message : String)
    (modelOpt callKey : Option String) (instKey : String)
    (fetch : FetchResult Upstream) (parse : String → Option Json)
    (newChatId userMsgId asstMsgId : String) (t tMsg tUpd : Nat) :
    Except String TranscodeResult × ChatStore :=
  match storeGet store chatId with
  | none =>
    createChatStream store message modelOpt callKey instKey fetch parse
      newChatId userMsgId asstMsgId t tMsg tUpd
  | some chat0 =>
    let userMessage : ChatMessage :=
      { id := some userMsgId, role := .user, content := message, created_at := some t }
    let chat : ChatDetail := { chat0 with messages := chat0.messages ++ [userMessage] }
    let store1 := storeSet store chatId chat
    let openRouterMessages : List OpenRouterMessage :=
      { role := Role.system, content := systemPrompt } ::
        chat.messages.map (fun m => { role := m.role, content := m.content })
    match (createChatCompletion instKey openRouterMessages modelOpt true callKey fetch).1 with
    | .error e => (.error e, store1)
    | .ok up =>
      let r := transformStreamToV0Format parse chat store1 asstMsgId tMsg tUpd up
      (.ok r, r.store)

/-- Concatenation, in emission order, of the (string-coerced) content fields
of the `message_delta` events of an event list. -/
def deltaConcat : List StreamEvent → String
  | [] => ""
  | .message_delta c _ :: rest => jsToString c ++ deltaConcat rest
  | .chat_complete _ :: rest => deltaConcat rest

/-- Every event of the list is a `message_delta` carrying `mid`. -/
def deltaOnly (mid : String) (evs : List StreamEvent) : Bool :=
  evs.all fun e =>
    match e with
    | .message_delta _ m => m == mid
    | .chat_complete _ => false

/-- No event of the list is a `chat_complete`. -/
def noComplete (evs : List StreamEvent) : Bool :=
  evs.all fun e =>
    match e with
    | .message_delta _ _ => true
    | .chat_complete _ => false

/-- Whether `pat` occurs as a contiguous segment of `l`. -/
def subOccurs : List Char → List Char → Bool
  | pat, [] => pat.isEmpty
  | pat, c :: rest => pat.isPrefixOf (c :: rest) || subOccurs pat rest

/-- Whether the string `info` occurs verbatim inside the string `msg`; used to
state what an error message carries. -/
def mentions (msg info : String) : Bool := subOccurs info.data msg.data

/-- The per-call inputs of one sync `sendMessage` turn: the message text, the
upstream completion response, and the `nanoid()`/`Date.now()` draws of the
call. -/
structure TurnInput where
  message : String
  resp : OpenRouterResponse
  userMsgId : String
  asstMsgId : String
  t : Nat
  tA : Nat

/-- A sequence of sequential sync `sendMessage` calls against the one session
id `cid`, threading the store. -/
def runSends (modelOpt callKey : Option String) (instKey cid : String) :
    ChatStore → List TurnInput → ChatStore
  | store, [] => store
  | store, inp :: rest =>
    runSends modelOpt callKey instKey cid
      (sendMessageSync store cid inp.message modelOpt callKey instKey (.ok inp.resp)
        cid inp.userMsgId inp.asstMsgId inp.t inp.tA).2 rest

/-- The role sequence of `n` completed turns: user, assistant, user,
assistant, … (`n` of each, interleaved in turn order). -/
def rolePattern : Nat → List Role
  | 0 => []
  | n + 1 => rolePattern n ++ [.user, .assistant]

/-- A successful completion response used as a concrete witness input. -/
def respOkW : OpenRouterResponse :=
  { choices := [{ message := some { role := some "assistant", content := some "hi there" }
                  finish_reason := some "stop" }] }

/-- A completion response with no choices, used as a concrete witness input. -/
def respEmptyW : OpenRouterResponse := { choices := [] }

/-- The session `createChat("hello", sync)` builds with the witness inputs. -/
def chatW : ChatDetail :=
  { id := "c1", created_at := 1, updated_at := 2, demo := some true
    messages :=
      [{ id := some "u1", role := .user, content := "hello", created_at := some 1 },
       { id := some "a1", role := .assistant, content := "hi there", created_at := some 2 }] }

/-- The store left behind by the witness `createChat` call. -/
def storeW : ChatStore := [("c1", chatW)]

/-- A pre-existing session used to seed witness stores. -/
def chatSeedW : ChatDetail :=
  { id := "c0", created_at := 0, updated_at := 0, demo := some true
    messages :=
      [{ id := some "u0", role := .user, content := "seed", created_at := some 0 },
       { id := some "a0", role := .assistant, content := "ok", created_at := some 0 }] }

/-- A witness store holding the pre-existing session. -/
def storeSeedW : ChatStore := [("c0", chatSeedW)]

/-- A concrete `JSON.parse` oracle for witnesses: one well-formed payload
with no content fragment; every other payload is malformed. -/
def parseW : String → Option Json :=
  fun s => if s = "nocontent" then some (.obj []) else none

/-- First witness turn for the sequential `sendMessage` run. -/
def turnW1 : TurnInput :=
  { message := "hello", resp := respOkW, userMsgId := "u1", asstMsgId := "a1", t := 1, tA := 2 }

/-- Second witness turn for the sequential `sendMessage` run. -/
def turnW2 : TurnInput :=
  { message := "again", resp := respOkW, userMsgId := "u2", asstMsgId := "a2", t := 3, tA := 4 }

theorem storeGet_storeSet_self (s : ChatStore) (k : String) (v : ChatDetail) :
    storeGet (storeSet s k v) k = some v := by
  induction s with
  | nil => simp [storeSet, storeGet]
  | cons hd tl ih =>
    obtain ⟨k1, v1⟩ := hd
    by_cases h : k1 = k <;> simp [storeSet, storeGet, h, ih]

theorem deltaConcat_append (xs ys : List StreamEvent) :
    deltaConcat (xs ++ ys) = deltaConcat xs ++ deltaConcat ys := by
  induction xs with
  | nil => simp [deltaConcat]
  | cons e rest ih => cases e <;> simp [deltaConcat, ih, String.append_assoc]

theorem deltaOnly_append (mid : String) (xs ys : List StreamEvent) :
    deltaOnly mid (xs ++ ys) = (deltaOnly mid xs && deltaOnly mid ys) := by
  simp [deltaOnly, List.all_append]

theorem noComplete_of_deltaOnly (mid : String) :
    ∀ evs : List StreamEvent, deltaOnly mid evs = true → noComplete evs = true := by
  intro evs
  induction evs with
  | nil => simp [deltaOnly, noComplete]
  | cons e rest ih =>
    cases e <;> simp [deltaOnly, noComplete] at * <;> intro h1 h2 <;> exact ih h2

theorem processLine_spec (parse : String → Option Json) (mid acc line : String) :
    (processLine parse mid acc line).1 = acc ++ deltaConcat (processLine parse mid acc line).2
    ∧ deltaOnly mid (processLine parse mid acc line).2 = true := by
  unfold processLine
  split
  · split
    · simp [deltaConcat, deltaOnly, String.append_empty]
    · cases hp : parse (jsSlice line 6) with
      | none => simp [deltaConcat, deltaOnly, String.append_empty]
      | some parsed =>
        cases hc : deltaContent parsed with
        | none => simp [hc, deltaConcat, deltaOnly, String.append_empty]
        | some content =>
          by_cases ht : jsTruthy content <;>
            simp [hc, ht, deltaConcat, deltaOnly, String.append_empty]
  · simp [deltaConcat, deltaOnly, String.append_empty]

theorem processLines_spec (parse : String → Option Json) (mid : String) :
    ∀ (ls : List String) (acc : String),
      (processLines parse mid acc ls).1 = acc ++ deltaConcat (processLines parse mid acc ls).2
      ∧ deltaOnly mid (processLines parse mid acc ls).2 = true := by
  intro ls
  induction ls with
  | nil => intro acc; simp [processLines, deltaConcat, deltaOnly, String.append_empty]
  | cons line rest ih =>
    intro acc
    obtain ⟨h1, h1b⟩ := processLine_spec parse mid acc line
    obtain ⟨h2, h2b⟩ := ih (processLine parse mid acc line).1
    refine ⟨?_, ?_⟩
    · simp only [processLines]
      rw [h2, h1, deltaConcat_append, String.append_assoc]
    · simp only [processLines]
      rw [deltaOnly_append, h1b, h2b]
      rfl

theorem processChunks_spec (parse : String → Option Json) (mid : String) :
    ∀ (cs : List String) (acc : String),
      (processChunks parse mid acc cs).1 = acc ++ deltaConcat (processChunks parse mid acc cs).2
      ∧ deltaOnly mid (processChunks parse mid acc cs).2 = true := by
  intro cs
  induction cs with
  | nil => intro acc; simp [processChunks, deltaConcat, deltaOnly, String.append_empty]
  | cons c rest ih =>
    intro acc
    obtain ⟨h1, h1b⟩ := processLines_spec parse mid (jsSplitNewlines c) acc
    obtain ⟨h2, h2b⟩ := ih (processChunk parse mid acc c).1
    refine ⟨?_, ?_⟩
    · simp only [processChunks]
      rw [h2, show (processChunk parse mid acc c).1 = _ from h1, deltaConcat_append,
        String.append_assoc]
      rfl
    · simp only [processChunks]
      rw [deltaOnly_append]
      have hb : deltaOnly mid (processChunk parse mid acc c).2 = true := h1b
      rw [hb, h2b]
      rfl

/-- C2: In stream mode, for any upstream byte stream (in particular any one
containing at least one well-formed data record followed by the `[DONE]`
sentinel), every event before the last is a `message_delta`, the last event is
the single `chat_complete` (so it is emitted exactly once, only after the
upstream channel closes), and concatenating the content fields of the
`message_delta` events in emission order equals the content of the final
assistant message inside the `chat_complete` event's chat. -/
theorem stream_delta_concat_eq_final_content (parse : String → Option Json)
    (chat : ChatDetail) (store : ChatStore) (mid : String) (tMsg tUpd : Nat)
    (chunks : List String) :
    let r := transformStreamToV0Format parse chat store mid tMsg tUpd ⟨chunks, .done⟩
    deltaOnly mid r.events.dropLast = true
    ∧ r.events.getLast? = some (.chat_complete r.chat)
    ∧ r.chat.messages.getLast?
        = some { id := some mid, role := .assistant
                 content := deltaConcat r.events.dropLast, created_at := some tMsg } := by
  intro r
  obtain ⟨h1, h2⟩ := processChunks_spec parse mid chunks ""
  have hev : r.events = (processChunks parse mid "" chunks).2
      ++ [.chat_complete r.chat] := rfl
  have hdrop : r.events.dropLast = (processChunks parse mid "" chunks).2 :=
    List.dropLast_concat
  refine ⟨?_, ?_, ?_⟩
  · rw [hev, List.dropLast_concat]; exact h2
  · rw [hev, List.getLast?_concat]
  · have hm : r.chat.messages.getLast?
        = some { id := some mid, role := .assistant
                 content := (processChunks parse mid "" chunks).1, created_at := some tMsg } :=
      List.getLast?_concat chat.messages
    rw [hm, hdrop, h1, String.empty_append]

/-- C10: Within one stream-mode turn, every emitted `message_delta` event
carries the same `messageId` `mid` (the transcoder's single `nanoid()` draw),
and that id equals the id of the assistant message appended to the session
carried in the final `chat_complete` event. -/
theorem stream_messageId_consistent (parse : String → Option Json)
    (chat : ChatDetail) (store : ChatStore) (mid : String) (tMsg tUpd : Nat)
    (chunks : List String) :
    let r := transformStreamToV0Format parse chat store mid tMsg tUpd ⟨chunks, .done⟩
    deltaOnly mid r.events.dropLast = true
    ∧ r.events.getLast? = some (.chat_complete r.chat)
    ∧ r.chat.messages.getLast?.bind ChatMessage.id = some mid := by
  intro r
  obtain ⟨h1, h2⟩ := processChunks_spec parse mid chunks ""
  have hev : r.events = (processChunks parse mid "" chunks).2
      ++ [.chat_complete r.chat] := rfl
  refine ⟨?_, ?_, ?_⟩
  · rw [hev, List.dropLast_concat]; exact h2
  · rw [hev, List.getLast?_concat]
  · have hmsg : r.chat.messages = chat.messages
        ++ [{ id := some mid, role := .assistant
              content := (processChunks parse mid "" chunks).1, created_at := some tMsg }] := rfl
    rw [hmsg, List.getLast?_concat]
    rfl

/-- C4: When an upstream read error ends the stream during transcoding, the
outbound stream terminates in the errored state, no `chat_complete` event is
emitted, the Session Store is left exactly as it was (no store write happens
in the failed turn), and no assistant message is committed to the session. -/
theorem stream_error_leaves_store_unmodified (parse : String → Option Json)
    (chat : ChatDetail) (store : ChatStore) (mid : String) (tMsg tUpd : Nat)
    (chunks : List String) (errMsg : String) :
    let r := transformStreamToV0Format parse chat store mid tMsg tUpd ⟨chunks, .readError errMsg⟩
    r.outcome = .errored errMsg
    ∧ noComplete r.events = true
    ∧ r.store = store
    ∧ r.chat = chat := by
  intro r
  obtain ⟨h1, h2⟩ := processChunks_spec parse mid chunks ""
  exact ⟨rfl, noComplete_of_deltaOnly mid _ h2, rfl, rfl⟩

/-- C8: During stream transcoding, a line not prefixed with the data-record
marker is never inspected (it changes nothing), the `[DONE]` sentinel record,
a malformed-JSON data record, and a well-formed data record carrying no
(truthy) content fragment each produce zero `message_delta` events and leave
the accumulator untouched; and the termination of the outbound stream depends
only on how the upstream channel ends, never on the records seen. -/
theorem transcoder_skips_sentinel_malformed_and_contentless
    (parse : String → Option Json) (mid acc line : String) (j : Json)
    (chat : ChatDetail) (store : ChatStore) (tMsg tUpd : Nat)
    (chunks : List String) (ending : UpstreamEnd) :
    (jsStartsWith line "data: " = false → processLine parse mid acc line = (acc, []))
    ∧ (jsStartsWith line "data: " = true → jsSlice line 6 = "[DONE]" →
        processLine parse mid acc line = (acc, []))
    ∧ (jsStartsWith line "data: " = true → parse (jsSlice line 6) = none →
        processLine parse mid acc line = (acc, []))
    ∧ (jsStartsWith line "data: " = true → parse (jsSlice line 6) = some j →
        (deltaContent j).all (fun c => ! jsTruthy c) = true →
        processLine parse mid acc line = (acc, []))
    ∧ (transformStreamToV0Format parse chat store mid tMsg tUpd ⟨chunks, ending⟩).outcome
        = (match ending with | .done => .closed | .readError m => .errored m) := by
    refine ⟨?_, ?_, ?_, ?_, ?_⟩
    · intro h; simp [processLine, h]
    · intro h hdone; simp [processLine, h, hdone]
    · intro h hparse
      by_cases hdone : jsSlice line 6 = "[DONE]"
      · simp [processLine, h, hdone]
      · simp [processLine, h, hdone, hparse]
    · intro h hparse hnc
      by_cases hdone : jsSlice line 6 = "[DONE]"
      · simp [processLine, h, hdone]
      · cases hc : deltaContent j with
        | none => simp [processLine, h, hdone, hparse, hc]
        | some content =>
          rw [hc] at hnc
          simp only [Option.all_some, Bool.not_eq_true'] at hnc
          simp [processLine, h, hdone, hparse, hc, hnc]
    · cases ending <;> rfl

theorem isPrefixOf_append_self : ∀ (l t : List Char), l.isPrefixOf (l ++ t) = true := by
  intro l
  induction l with
  | nil => intro t; simp [List.isPrefixOf]
  | cons a as ih => intro t; simp [List.isPrefixOf, ih]

theorem subOccurs_parts : ∀ (pre pat post : List Char), subOccurs pat (pre ++ pat ++ post) = true := by
  intro pre
  induction pre with
  | nil =>
    intro pat post
    cases pat with
    | nil =>
      cases post with
      | nil => rfl
      | cons c cs => simp [subOccurs, List.isPrefixOf]
    | cons p ps =>
      have hp := isPrefixOf_append_self (p :: ps) post
      simp only [List.cons_append] at hp
      simp only [List.nil_append, List.cons_append]
      rw [show subOccurs (p :: ps) (p :: (ps ++ post))
          = ((p :: ps).isPrefixOf (p :: (ps ++ post)) || subOccurs (p :: ps) (ps ++ post))
        from rfl]
      rw [hp]
      rfl
  | cons c cs ih =>
    intro pat post
    simp only [List.cons_append]
    rw [show subOccurs pat (c :: (cs ++ pat ++ post))
        = (pat.isPrefixOf (c :: (cs ++ pat ++ post)) || subOccurs pat (cs ++ pat ++ post))
      from rfl]
    rw [ih pat post]
    exact Bool.or_true _

theorem mentions_middle (a b c : String) : mentions (a ++ b ++ c) b = true := by
  unfold mentions
  rw [String.data_append, String.data_append]
  exact subOccurs_parts a.data b.data c.data

theorem mentions_suffix (a b : String) : mentions (a ++ b) b = true := by
  unfold mentions
  rw [String.data_append]
  have h := subOccurs_parts a.data b.data []
  simpa using h

/-- C8 witness: the skip cases at concrete inputs. -/
theorem transcoder_skips_sentinel_malformed_and_contentless_witness :
    processLine parseW "m1" "abc" "event: ping" = ("abc", [])
    ∧ processLine parseW "m1" "abc" "data: [DONE]" = ("abc", [])
    ∧ processLine parseW "m1" "abc" "data: garbage" = ("abc", [])
    ∧ processLine parseW "m1" "abc" "data: nocontent" = ("abc", [])
    ∧ (transformStreamToV0Format parseW chatSeedW [] "m1" 5 6
        ⟨["data: garbage"], .done⟩).outcome = .closed :=
  ⟨(transcoder_skips_sentinel_malformed_and_contentless parseW "m1" "abc" "event: ping"
      (.obj []) chatSeedW [] 5 6 [] .done).1 rfl,
   (transcoder_skips_sentinel_malformed_and_contentless parseW "m1" "abc" "data: [DONE]"
      (.obj []) chatSeedW [] 5 6 [] .done).2.1 rfl (by decide),
   (transcoder_skips_sentinel_malformed_and_contentless parseW "m1" "abc" "data: garbage"
      (.obj []) chatSeedW [] 5 6 [] .done).2.2.1 rfl rfl,
   (transcoder_skips_sentinel_malformed_and_contentless parseW "m1" "abc" "data: nocontent"
      (.obj []) chatSeedW [] 5 6 [] .done).2.2.2.1 rfl rfl rfl,
   (transcoder_skips_sentinel_malformed_and_contentless parseW "m1" "abc" "data: garbage"
      (.obj []) chatSeedW [] 5 6 ["data: garbage"] .done).2.2.2.2⟩

/-- C1: For every non-empty message, a successful sync `createChat` returns a
chat whose first message is the user message with that content, whose last
message has role assistant, and a subsequent `getChat` with the returned id
yields the very same chat. -/
theorem createChat_sync_first_user_last_assistant (store : ChatStore) (msg : String)
    (modelOpt callKey : Option String) (instKey : String)
    (fetch : FetchResult OpenRouterResponse) (chatId uid aid : String) (t tA : Nat)
    (chat : ChatDetail) (store2 : ChatStore)
    (hmsg : msg ≠ "")
    (h : createChatSync store msg modelOpt callKey instKey fetch chatId uid aid t tA
      = (.ok chat, store2)) :
    chat.messages.head?.map (fun m => (m.role, m.content)) = some (Role.user, msg)
    ∧ chat.messages.getLast?.map ChatMessage.role = some Role.assistant
    ∧ getChat store2 chat.id = some chat := by
  simp only [createChatSync] at h
  split at h
  · exact absurd h (by simp)
  · rw [Prod.mk.injEq] at h
    obtain ⟨h1, h2⟩ := h
    rw [Except.ok.injEq] at h1
    subst h1
    subst h2
    refine ⟨rfl, rfl, ?_⟩
    exact storeGet_storeSet_self store chatId _

/-- C1 witness: a concrete successful sync `createChat` run. -/
theorem createChat_sync_first_user_last_assistant_witness :
    chatW.messages.head?.map (fun m => (m.role, m.content)) = some (Role.user, "hello")
    ∧ chatW.messages.getLast?.map ChatMessage.role = some Role.assistant
    ∧ getChat storeW chatW.id = some chatW :=
  createChat_sync_first_user_last_assistant [] "hello" none (some "k") "" (.ok respOkW)
    "c1" "u1" "a1" 1 2 chatW storeW (by decide) rfl

/-- C5: `sendMessage` with a session id absent from the store behaves exactly
as `createChat` with the same message, mode, model, and credential arguments,
in sync mode and in stream mode alike. -/
theorem sendMessage_unknown_id_equals_createChat (store : ChatStore) (cid msg : String)
    (modelOpt callKey : Option String) (instKey : String)
    (fetchR : FetchResult OpenRouterResponse) (fetchS : FetchResult Upstream)
    (parse : String → Option Json) (nid uid aid : String) (t tA tMsg tUpd : Nat)
    (h : storeGet store cid = none) :
    sendMessageSync store cid msg modelOpt callKey instKey fetchR nid uid aid t tA
      = createChatSync store msg modelOpt callKey instKey fetchR nid uid aid t tA
    ∧ sendMessageStream store cid msg modelOpt callKey instKey fetchS parse nid uid aid t tMsg tUpd
      = createChatStream store msg modelOpt callKey instKey fetchS parse nid uid aid t tMsg tUpd := by
  constructor
  · unfold sendMessageSync
    rw [h]
  · unfold sendMessageStream
    rw [h]

/-- C5 witness: a concrete `sendMessage` against an id not in the store. -/
theorem sendMessage_unknown_id_equals_createChat_witness :
    sendMessageSync [] "nope" "hello" none (some "k") "" (.ok respOkW) "c1" "u1" "a1" 1 2
      = createChatSync [] "hello" none (some "k") "" (.ok respOkW) "c1" "u1" "a1" 1 2
    ∧ sendMessageStream [] "nope" "hello" none (some "k") "" (.ok ⟨[], .done⟩) parseW
        "c1" "u1" "a1" 1 2 3
      = createChatStream [] "hello" none (some "k") "" (.ok ⟨[], .done⟩) parseW
        "c1" "u1" "a1" 1 2 3 :=
  sendMessage_unknown_id_equals_createChat [] "nope" "hello" none (some "k") ""
    (.ok respOkW) (.ok ⟨[], .done⟩) parseW "c1" "u1" "a1" 1 2 2 3 rfl

/-- C6: The effective credential of a completion call is the caller-supplied
key when a non-empty one is given, otherwise the process-wide fallback key;
when neither is available the call fails with the authorization error before
any network request is performed, and in particular `createChat` then fails
without touching the Session Store. -/
theorem effective_credential_resolution {α : Type} (instKey : String)
    (messages : List OpenRouterMessage) (modelOpt : Option String) (streamFlag : Bool)
    (k : String) (callKey : Option String) (fetch : FetchResult α)
    (store : ChatStore) (msg : String) (fetchR : FetchResult OpenRouterResponse)
    (chatId uid aid : String) (t tA : Nat) :
    (k ≠ "" →
      ((createChatCompletion instKey messages modelOpt streamFlag (some k) fetch).2.all
        (fun r => r.authorization == "Bearer " ++ k)) = true)
    ∧ ((createChatCompletion instKey messages modelOpt streamFlag none fetch).2.all
        (fun r => r.authorization == "Bearer " ++ instKey)) = true
    ∧ (effectiveKey callKey instKey = "" →
        createChatCompletion (α := α) instKey messages modelOpt streamFlag callKey fetch
          = (.error missingKeyMessage, [])
        ∧ createChatSync store msg modelOpt callKey instKey fetchR chatId uid aid t tA
          = (.error missingKeyMessage, store)) := by
  refine ⟨?_, ?_, ?_⟩
  · intro hk
    have he : effectiveKey (some k) instKey = k := by simp [effectiveKey, jsOr, hk]
    simp only [createChatCompletion, he]
    rw [if_neg hk]
    cases fetch <;> simp
  · have he : effectiveKey none instKey = instKey := by simp [effectiveKey, jsOr]
    simp only [createChatCompletion, he]
    by_cases hi : instKey = ""
    · rw [if_pos hi]; rfl
    · rw [if_neg hi]
      cases fetch <;> simp
  · intro hek
    have hcl : ∀ (β : Type) (ms : List OpenRouterMessage) (sf : Bool) (f : FetchResult β),
        createChatCompletion instKey ms modelOpt sf callKey f
          = (.error missingKeyMessage, []) := by
      intro β ms sf f
      simp only [createChatCompletion]
      rw [if_pos hek]
    refine ⟨hcl α messages streamFlag fetch, ?_⟩
    simp [createChatSync, hcl]

/-- C6 witness: credential resolution at concrete inputs. -/
theorem effective_credential_resolution_witness :
    ((createChatCompletion "ik" [] none false (some "ck") (.ok respOkW)).2.all
        (fun r => r.authorization == "Bearer " ++ "ck")) = true
    ∧ ((createChatCompletion "ik" [] none false none (.ok respOkW)).2.all
        (fun r => r.authorization == "Bearer " ++ "ik")) = true
    ∧ (createChatCompletion (α := OpenRouterResponse) "" [] none false none (.ok respOkW)
          = (.error missingKeyMessage, [])
        ∧ createChatSync [] "mm" none none "" (.ok respOkW) "c9" "u9" "a9" 7 8
          = (.error missingKeyMessage, [])) :=
  ⟨(effective_credential_resolution "ik" [] none false "ck" none (.ok respOkW)
      [] "mm" (.ok respOkW) "c9" "u9" "a9" 7 8).1 (by decide),
   (effective_credential_resolution "ik" [] none false "ck" none (.ok respOkW)
      [] "mm" (.ok respOkW) "c9" "u9" "a9" 7 8).2.1,
   (effective_credential_resolution "" [] none false "ck" none (.ok respOkW)
      [] "mm" (.ok respOkW) "c9" "u9" "a9" 7 8).2.2 rfl⟩

/-- C7 counterexample: on HTTP 401 with response body text `Invalid API key`,
the thrown error message is `OpenRouter API error: 401 Unauthorized`, which
does not carry the response body text (the body is only logged). -/
theorem upstream_status_error_lacks_body_text :
    (createChatCompletion (α := OpenRouterResponse) "env-key" [] none false none
        (.httpError 401 "Unauthorized" "Invalid API key")).1
      = .error "OpenRouter API error: 401 Unauthorized"
    ∧ mentions "OpenRouter API error: 401 Unauthorized" "Invalid API key" = false := by
  constructor
  · rfl
  · rfl

/-- C7 (amended): on a non-success upstream status the completion client
fails with an error carrying the numeric status code and the HTTP status
text (not the response body text, which is only logged); a 401 on sync
`createChat` yields that error and leaves the Session Store unchanged, hence
without any entry for the id allocated by the call. -/
theorem upstream_status_error_carries_status (instKey : String)
    (messages : List OpenRouterMessage) (modelOpt : Option String) (streamFlag : Bool)
    (callKey : Option String) (status : Nat) (statusText bodyText : String)
    (store : ChatStore) (msg : String) (chatId uid aid : String) (t tA : Nat)
    (hk : effectiveKey callKey instKey ≠ "") :
    (createChatCompletion (α := OpenRouterResponse) instKey messages modelOpt streamFlag callKey
        (.httpError status statusText bodyText)).1 = .error (apiErrorMessage status statusText)
    ∧ mentions (apiErrorMessage status statusText) (toString status) = true
    ∧ mentions (apiErrorMessage status statusText) statusText = true
    ∧ createChatSync store msg modelOpt callKey instKey (.httpError 401 "Unauthorized" bodyText)
        chatId uid aid t tA = (.error (apiErrorMessage 401 "Unauthorized"), store)
    ∧ storeGet (createChatSync store msg modelOpt callKey instKey
        (.httpError 401 "Unauthorized" bodyText) chatId uid aid t tA).2 chatId
      = storeGet store chatId := by
  have hcl : ∀ (st : Nat) (sx bx : String) (ms : List OpenRouterMessage) (sf : Bool),
      createChatCompletion (α := OpenRouterResponse) instKey ms modelOpt sf callKey
          (.httpError st sx bx)
        = (.error (apiErrorMessage st sx),
           [{ url := OPENROUTER_API_BASE_URL ++ "/chat/completions"
              authorization := "Bearer " ++ effectiveKey callKey instKey
              model := modelOpt.getD DEFAULT_MODEL
              messages := ms, stream := sf, max_tokens := 4000 }]) := by
    intro st sx bx ms sf
    simp only [createChatCompletion]
    rw [if_neg hk]
  have h4 : createChatSync store msg modelOpt callKey instKey
      (.httpError 401 "Unauthorized" bodyText) chatId uid aid t tA
      = (.error (apiErrorMessage 401 "Unauthorized"), store) := by
    simp [createChatSync, hcl]
  refine ⟨?_, ?_, ?_, h4, ?_⟩
  · rw [hcl]
  · have hm : apiErrorMessage status statusText
        = "OpenRouter API error: " ++ toString status ++ (" " ++ statusText) := by
      unfold apiErrorMessage
      rw [String.append_assoc]
    rw [hm]
    exact mentions_middle _ _ _
  · unfold apiErrorMessage
    exact mentions_suffix _ _
  · rw [h4]

/-- C7 witness: a concrete non-success status and the 401 `createChat` run. -/
theorem upstream_status_error_carries_status_witness :
    (createChatCompletion (α := OpenRouterResponse) "env-key" [] none false none
        (.httpError 404 "Not Found" "missing")).1 = .error (apiErrorMessage 404 "Not Found")
    ∧ mentions (apiErrorMessage 404 "Not Found") (toString 404) = true
    ∧ mentions (apiErrorMessage 404 "Not Found") "Not Found" = true
    ∧ createChatSync [] "hi" none none "env-key" (.httpError 401 "Unauthorized" "missing")
        "c7" "u7" "a7" 1 2 = (.error (apiErrorMessage 401 "Unauthorized"), [])
    ∧ storeGet (createChatSync [] "hi" none none "env-key"
        (.httpError 401 "Unauthorized" "missing") "c7" "u7" "a7" 1 2).2 "c7"
      = storeGet [] "c7" :=
  upstream_status_error_carries_status "env-key" [] none false none 404 "Not Found"
    "missing" [] "hi" "c7" "u7" "a7" 1 2 (by decide)

/-- C9: When the sync completion response has no choices, no message, or an
absent or empty content string, neither `createChat` nor `sendMessage` fails:
the appended assistant message's content is the literal fallback text
`No response generated`. -/
theorem empty_completion_falls_back (resp : OpenRouterResponse) (store : ChatStore)
    (cid msg : String) (modelOpt callKey : Option String) (instKey : String)
    (chatId uid aid : String) (t tA : Nat)
    (hshape : ((resp.choices.head?.bind RespChoice.message).bind RespMessage.content).getD ""
      = "")
    (hk : effectiveKey callKey instKey ≠ "") :
    extractContent resp = "No response generated"
    ∧ (createChatSync store msg modelOpt callKey instKey (.ok resp) chatId uid aid t tA).1.isOk
      = true
    ∧ ((createChatSync store msg modelOpt callKey instKey (.ok resp) chatId uid aid t tA).1.toOption.map
        (fun c => c.messages.getLast?.map ChatMessage.content)) = some (some "No response generated")
    ∧ ((storeGet store cid).isSome = true →
        (sendMessageSync store cid msg modelOpt callKey instKey (.ok resp) chatId uid aid t tA).1.isOk
          = true
        ∧ ((sendMessageSync store cid msg modelOpt callKey instKey (.ok resp) chatId uid aid t tA).1.toOption.map
            (fun c => c.messages.getLast?.map ChatMessage.content))
          = some (some "No response generated")) := by
  have hex : extractContent resp = "No response generated" := by
    unfold extractContent
    rw [hshape]
    rfl
  have hcl : ∀ ms : List OpenRouterMessage,
      (createChatCompletion (α := OpenRouterResponse) instKey ms modelOpt false callKey
        (.ok resp)).1 = .ok resp := by
    intro ms
    simp [createChatCompletion, hk]
  refine ⟨hex, ?_, ?_, ?_⟩
  · simp only [createChatSync, hcl]
    rfl
  · simp [createChatSync, hcl, Except.toOption, List.getLast?_concat, hex]
  · intro hsome
    obtain ⟨chat0, h0⟩ := Option.isSome_iff_exists.mp hsome
    refine ⟨?_, ?_⟩
    · simp only [sendMessageSync, h0, hcl]
      rfl
    · simp [sendMessageSync, h0, hcl, Except.toOption, List.getLast?_concat, hex]

/-- C9 witness: a response with an empty choice list, for `createChat` and
for `sendMessage` against a stored session. -/
theorem empty_completion_falls_back_witness :
    extractContent respEmptyW = "No response generated"
    ∧ (createChatSync storeSeedW "q" none (some "k") "" (.ok respEmptyW)
        "c1" "u1" "a1" 1 2).1.isOk = true
    ∧ ((createChatSync storeSeedW "q" none (some "k") "" (.ok respEmptyW)
        "c1" "u1" "a1" 1 2).1.toOption.map
        (fun c => c.messages.getLast?.map ChatMessage.content)) = some (some "No response generated")
    ∧ ((sendMessageSync storeSeedW "c0" "q" none (some "k") "" (.ok respEmptyW)
        "c1" "u1" "a1" 1 2).1.isOk = true
      ∧ ((sendMessageSync storeSeedW "c0" "q" none (some "k") "" (.ok respEmptyW)
          "c1" "u1" "a1" 1 2).1.toOption.map
          (fun c => c.messages.getLast?.map ChatMessage.content))
        = some (some "No response generated")) := by
  obtain ⟨w1, w2, w3, w4⟩ := empty_completion_falls_back respEmptyW storeSeedW "c0" "q"
    none (some "k") "" "c1" "u1" "a1" 1 2 rfl (by decide)
  exact ⟨w1, w2, w3, w4 rfl⟩

theorem createChat_sync_step (store : ChatStore) (msg : String)
    (modelOpt callKey : Option String) (instKey : String) (resp : OpenRouterResponse)
    (chatId uid aid : String) (t tA : Nat)
    (hk : effectiveKey callKey instKey ≠ "") :
    storeGet (createChatSync store msg modelOpt callKey instKey (.ok resp)
        chatId uid aid t tA).2 chatId
      = some { id := chatId, created_at := t, updated_at := tA, demo := some true
               messages :=
                 [{ id := some uid, role := .user, content := msg, created_at := some t }]
                 ++ [{ id := some aid, role := .assistant, content := extractContent resp
                       created_at := some tA }] } := by
  have hcl : ∀ ms : List OpenRouterMessage,
      (createChatCompletion (α := OpenRouterResponse) instKey ms modelOpt false callKey
        (.ok resp)).1 = .ok resp := fun ms => by simp [createChatCompletion, hk]
  simp only [createChatSync, hcl]
  exact storeGet_storeSet_self _ _ _

theorem sendMessage_present_step (store : ChatStore) (cid : String) (chat0 : ChatDetail)
    (msg : String) (modelOpt callKey : Option String) (instKey : String)
    (resp : OpenRouterResponse) (nid uid aid : String) (t tA : Nat)
    (hk : effectiveKey callKey instKey ≠ "")
    (h0 : storeGet store cid = some chat0) :
    storeGet (sendMessageSync store cid msg modelOpt callKey instKey (.ok resp)
        nid uid aid t tA).2 cid
      = some { chat0 with
          messages := (chat0.messages
              ++ [{ id := some uid, role := .user, content := msg, created_at := some t }])
            ++ [{ id := some aid, role := .assistant, content := extractContent resp
                  created_at := some tA }]
          updated_at := tA } := by
  have hcl : ∀ ms : List OpenRouterMessage,
      (createChatCompletion (α := OpenRouterResponse) instKey ms modelOpt false callKey
        (.ok resp)).1 = .ok resp := fun ms => by simp [createChatCompletion, hk]
  simp only [sendMessageSync, h0, hcl]
  exact storeGet_storeSet_self _ _ _

theorem rolePattern_succ_front (n : Nat) :
    [Role.user, Role.assistant] ++ rolePattern n = rolePattern (n + 1) := by
  induction n with
  | zero => rfl
  | succ m ih =>
    show [Role.user, Role.assistant] ++ (rolePattern m ++ [Role.user, Role.assistant])
      = rolePattern (m + 1) ++ [Role.user, Role.assistant]
    rw [← ih, List.append_assoc]

theorem rolePattern_counts (n : Nat) :
    (rolePattern n).count Role.user = n
    ∧ (rolePattern n).count Role.assistant = n
    ∧ (rolePattern n).count Role.system = 0 := by
  induction n with
  | zero => exact ⟨rfl, rfl, rfl⟩
  | succ m ih =>
    obtain ⟨h1, h2, h3⟩ := ih
    have cu : ([Role.user, Role.assistant] : List Role).count Role.user = 1 := by decide
    have ca : ([Role.user, Role.assistant] : List Role).count Role.assistant = 1 := by decide
    have cs : ([Role.user, Role.assistant] : List Role).count Role.system = 0 := by decide
    refine ⟨?_, ?_, ?_⟩ <;>
      simp [rolePattern, List.count_append, h1, h2, h3, cu, ca, cs]

theorem runSends_roles (modelOpt callKey : Option String) (instKey cid : String)
    (hk : effectiveKey callKey instKey ≠ "") :
    ∀ (inputs : List TurnInput) (store : ChatStore) (chat0 : ChatDetail),
      storeGet store cid = some chat0 →
      ∃ chat2, storeGet (runSends modelOpt callKey instKey cid store inputs) cid = some chat2
        ∧ chat2.messages.map ChatMessage.role
            = chat0.messages.map ChatMessage.role ++ rolePattern inputs.length := by
  intro inputs
  induction inputs with
  | nil =>
    intro store chat0 h0
    exact ⟨chat0, by simpa [runSends, rolePattern] using h0⟩
  | cons inp rest ih =>
    intro store chat0 h0
    have hstep := sendMessage_present_step store cid chat0 inp.message modelOpt callKey
      instKey inp.resp cid inp.userMsgId inp.asstMsgId inp.t inp.tA hk h0
    obtain ⟨chat2, h2, hr⟩ := ih _ _ hstep
    refine ⟨chat2, ?_, ?_⟩
    · simp only [runSends]
      exact h2
    · rw [hr]
      simp [List.map_append, List.append_assoc, List.length_cons, ← rolePattern_succ_front]

/-- C3: For every sequence of sequential sync `sendMessage` calls against one
session id (the first call finding the id absent and creating the session
under it, each call completing successfully), the final stored session holds
exactly one user and one assistant message per call, interleaved in turn
order, and no message with role system ever appears in the stored history. -/
theorem sendMessage_turns_interleaved (modelOpt callKey : Option String)
    (instKey cid : String) (store0 : ChatStore) (first : TurnInput) (rest : List TurnInput)
    (hk : effectiveKey callKey instKey ≠ "")
    (habsent : storeGet store0 cid = none) :
    ((storeGet (runSends modelOpt callKey instKey cid store0 (first :: rest)) cid).map
        (fun c => c.messages.map ChatMessage.role)) = some (rolePattern (first :: rest).length)
    ∧ ((storeGet (runSends modelOpt callKey instKey cid store0 (first :: rest)) cid).map
        (fun c => (c.messages.map ChatMessage.role).count Role.user))
      = some (first :: rest).length
    ∧ ((storeGet (runSends modelOpt callKey instKey cid store0 (first :: rest)) cid).map
        (fun c => (c.messages.map ChatMessage.role).count Role.assistant))
      = some (first :: rest).length
    ∧ ((storeGet (runSends modelOpt callKey instKey cid store0 (first :: rest)) cid).map
        (fun c => (c.messages.map ChatMessage.role).count Role.system)) = some 0 := by
  have habs : sendMessageSync store0 cid first.message modelOpt callKey instKey
      (.ok first.resp) cid first.userMsgId first.asstMsgId first.t first.tA
      = createChatSync store0 first.message modelOpt callKey instKey (.ok first.resp)
        cid first.userMsgId first.asstMsgId first.t first.tA := by
    simp only [sendMessageSync, habsent]
  have h1 := createChat_sync_step store0 first.message modelOpt callKey instKey first.resp
    cid first.userMsgId first.asstMsgId first.t first.tA hk
  have hrun : runSends modelOpt callKey instKey cid store0 (first :: rest)
      = runSends modelOpt callKey instKey cid
        (createChatSync store0 first.message modelOpt callKey instKey (.ok first.resp)
          cid first.userMsgId first.asstMsgId first.t first.tA).2 rest := by
    simp only [runSends, habs]
  obtain ⟨chat2, h2, hroles⟩ := runSends_roles modelOpt callKey instKey cid hk rest _ _ h1
  have hfinal : chat2.messages.map ChatMessage.role = rolePattern (first :: rest).length := by
    rw [hroles]
    simp [List.length_cons, ← rolePattern_succ_front]
  obtain ⟨p1, p2, p3⟩ := rolePattern_counts (first :: rest).length
  refine ⟨?_, ?_, ?_, ?_⟩
  · rw [hrun, h2]; simp [hfinal]
  · rw [hrun, h2]; simp [hfinal]; simpa using p1
  · rw [hrun, h2]; simp [hfinal]; simpa using p2
  · rw [hrun, h2]; simp [hfinal]; simpa using p3

/-- C3 witness: two sequential `sendMessage` calls against one session id. -/
theorem sendMessage_turns_interleaved_witness :
    ((storeGet (runSends none (some "k") "" "c1" [] [turnW1, turnW2]) "c1").map
        (fun c => c.messages.map ChatMessage.role)) = some (rolePattern 2)
    ∧ ((storeGet (runSends none (some "k") "" "c1" [] [turnW1, turnW2]) "c1").map
        (fun c => (c.messages.map ChatMessage.role).count Role.user)) = some 2
    ∧ ((storeGet (runSends none (some "k") "" "c1" [] [turnW1, turnW2]) "c1").map
        (fun c => (c.messages.map ChatMessage.role).count Role.assistant)) = some 2
    ∧ ((storeGet (runSends none (some "k") "" "c1" [] [turnW1, turnW2]) "c1").map
        (fun c => (c.messages.map ChatMessage.role).count Role.system)) = some 0 :=
  sendMessage_turns_interleaved none (some "k") "" "c1" [] turnW1 [turnW2]
    (by decide) rfl
